import Mathlib

/-!
Verification of the Kudora v2 transaction admission ("ante") pipeline.

The definitions below embed the Go source of the repository:
  - `anteDispatch`, `NewAnteHandler` from `app/tokenfactory.go` (the
    delegating constructor) and `NewAnteHandlerInline` from the inline
    constructor found in the unnamed app source file;
  - `cosmosDecorators` from `NewCosmosAnteHandler` plus `wasmDecorators`
    (`app/ante`), `evmDecorators` from `NewMonoEVMAnteHandler`;
  - `EVMAppOptions`, `initEVM`, `parseEVMChainID`, `setBaseDenom`,
    `ChainsCoinInfo` from `app/ibc.go`.

The individual decorators and `sdk.ChainAnteDecorators` live in external
libraries (cosmos-sdk, cosmos/evm, wasmd, ibc-go), not in this repository;
their behaviour is modelled from the specification where the claims need it.
-/

namespace Kudora

/-- The execution-context observables the claims talk about: total gas
charged, the signer's sequence (replay) counter, the fee payer's balance,
and the number of pending-tx observer notifications delivered. -/
structure Ctx where
  gasConsumed : Nat
  seq : Nat
  balance : Int
  notifications : Nat
deriving DecidableEq, Repr

/-- A transaction as the ante pipeline sees it.  `extOpts = none` models a
transaction that does not implement `HasExtensionOptionsTx` at all;
`extOpts = some urls` models one that does, exposing the listed extension
option type URLs in order.  The Boolean fields are the verdicts of the
individual library decorator checks, which the spec treats as pure
functions of the transaction (§5 statelessness). -/
structure Tx where
  extOpts : Option (List String)
  msgsSupported : Bool
  authzOk : Bool
  simGasOk : Bool
  txContractsOk : Bool
  circuitOk : Bool
  extOptValid : Bool
  basicValid : Bool
  timeoutOk : Bool
  memoOk : Bool
  minGasPriceOk : Bool
  txSizeGas : Nat
  feeOk : Bool
  feeAmount : Nat
  pubKeyOk : Bool
  sigCountOk : Bool
  sigGas : Nat
  validSig : Bool
  relayOk : Bool
  gasWantedOk : Bool
  evmMonoOk : Bool
  evmMonoGas : Nat
  observerCount : Nat
  observerFails : List Bool
deriving DecidableEq, Repr

/-- The typed errors the pipeline surfaces to the caller (spec §6/§7). -/
inductive AdmissionError where
  | unknownExtensionOptions (typeURL : String)
  | disallowedMessage
  | unauthorizedAuthz
  | simulationGasExceeded
  | contractsNotAllowed
  | circuitBreakerTripped
  | invalidExtensionOption
  | invalidBasic
  | timeoutHeightExceeded
  | invalidMemo
  | gasPriceBelowFloor
  | insufficientFee
  | missingPubKey
  | tooManySignatures
  | invalidSignature
  | redundantIBCRelay
  | gasWantedExceeded
  | evmMonoRejected
deriving DecidableEq, Repr

/-- The decorator kinds occurring in the two chains, one constructor per
concrete decorator the source instantiates. -/
inductive Decorator where
  | rejectMessages
  | authzLimiter
  | setUpContext
  | limitSimulationGas
  | countTX
  | gasRegister
  | txContracts
  | circuitBreaker
  | extensionOptions
  | validateBasic
  | txTimeoutHeight
  | validateMemo
  | minGasPrice
  | consumeGasForTxSize
  | deductFee
  | setPubKey
  | validateSigCount
  | sigGasConsume
  | sigVerification
  | incrementSequence
  | redundantRelay
  | gasWanted
  | evmMono
  | txListener
deriving DecidableEq, Repr

/-- Modelled from the spec: the per-decorator `process` contracts of §4.3
and §4.4 (the decorators themselves are library code, not part of this
repository).  Pure checks either pass the context through unchanged or
abort with their typed error; context-setup installs a fresh gas meter;
the size and signature gas consumers charge gas (in simulate mode too,
preserving fee-estimation accuracy); fee deduction debits the fee payer;
signature verification skips cryptography when simulating; sequence
increment advances the replay counter by one; the pending-tx notifier
invokes the registered observers and never fails (observer failures are
not propagated). -/
def runDecorator (d : Decorator) (ctx : Ctx) (tx : Tx) (simulate : Bool) :
    Except AdmissionError Ctx :=
  match d with
  | .rejectMessages => if tx.msgsSupported then .ok ctx else .error .disallowedMessage
  | .authzLimiter => if tx.authzOk then .ok ctx else .error .unauthorizedAuthz
  | .setUpContext => .ok { ctx with gasConsumed := 0 }
  | .limitSimulationGas =>
      if simulate && !tx.simGasOk then .error .simulationGasExceeded else .ok ctx
  | .countTX => .ok ctx
  | .gasRegister => .ok ctx
  | .txContracts => if tx.txContractsOk then .ok ctx else .error .contractsNotAllowed
  | .circuitBreaker => if tx.circuitOk then .ok ctx else .error .circuitBreakerTripped
  | .extensionOptions => if tx.extOptValid then .ok ctx else .error .invalidExtensionOption
  | .validateBasic => if tx.basicValid then .ok ctx else .error .invalidBasic
  | .txTimeoutHeight => if tx.timeoutOk then .ok ctx else .error .timeoutHeightExceeded
  | .validateMemo => if tx.memoOk then .ok ctx else .error .invalidMemo
  | .minGasPrice => if tx.minGasPriceOk then .ok ctx else .error .gasPriceBelowFloor
  | .consumeGasForTxSize => .ok { ctx with gasConsumed := ctx.gasConsumed + tx.txSizeGas }
  | .deductFee =>
      if tx.feeOk then .ok { ctx with balance := ctx.balance - tx.feeAmount }
      else .error .insufficientFee
  | .setPubKey => if tx.pubKeyOk then .ok ctx else .error .missingPubKey
  | .validateSigCount => if tx.sigCountOk then .ok ctx else .error .tooManySignatures
  | .sigGasConsume => .ok { ctx with gasConsumed := ctx.gasConsumed + tx.sigGas }
  | .sigVerification =>
      if simulate || tx.validSig then .ok ctx else .error .invalidSignature
  | .incrementSequence => .ok { ctx with seq := ctx.seq + 1 }
  | .redundantRelay => if tx.relayOk then .ok ctx else .error .redundantIBCRelay
  | .gasWanted => if tx.gasWantedOk then .ok ctx else .error .gasWantedExceeded
  | .evmMono =>
      if tx.evmMonoOk then .ok { ctx with gasConsumed := ctx.gasConsumed + tx.evmMonoGas }
      else .error .evmMonoRejected
  | .txListener => .ok { ctx with notifications := ctx.notifications + tx.observerCount }

/-- Modelled from the spec: `sdk.ChainAnteDecorators` composition (§4.2) —
each decorator passes control to the remainder of the chain exactly once on
success, or aborts the whole run with its error.  The first component of
the result records which decorators actually executed. -/
def runChainAux (ds : List Decorator) (ctx : Ctx) (tx : Tx) (simulate : Bool) :
    List Decorator × Except AdmissionError Ctx :=
  match ds with
  | [] => ([], .ok ctx)
  | d :: rest =>
      match runDecorator d ctx tx simulate with
      | .error e => ([d], .error e)
      | .ok ctx' =>
          let r := runChainAux rest ctx' tx simulate
          (d :: r.1, r.2)

/-- An ante handler in this embedding: the Go signature
`func(ctx, tx, simulate) (newCtx, err)`. -/
def Handler : Type := Ctx → Tx → Bool → Ctx × Option AdmissionError

/-- Modelled from the spec: the handler a composed chain presents to the
pipeline entry point, with the §6 exit contract — a non-nil error means the
caller observes the pre-call context (mutations are discarded as a unit),
a nil error means the context reflects all decorator mutations. -/
def chainHandler (ds : List Decorator) : Handler := fun ctx tx simulate =>
  match (runChainAux ds ctx tx simulate).2 with
  | .ok c => (c, none)
  | .error e => (ctx, some e)

/-- Type URL of the Ethereum-transaction extension option
(`app/tokenfactory.go`). -/
def ethereumTxTypeURL : String := "/cosmos.evm.vm.v1.ExtensionOptionsEthereumTx"

/-- Type URL of the dynamic-fee extension option (`app/tokenfactory.go`). -/
def dynamicFeeTypeURL : String := "/cosmos.evm.types.v1.ExtensionOptionDynamicFeeTx"

/-- The dispatch closure returned by `NewAnteHandler`
(`app/tokenfactory.go` lines 159-179), parametric in the two chain
handlers it closes over: transactions exposing no extension options run
the Cosmos chain; a leading Ethereum-tx extension routes to the EVM chain;
a leading dynamic-fee extension routes to the Cosmos chain; any other
leading type URL is rejected with `ErrUnknownExtensionOptions` carrying
the offending URL, the input context returned untouched. -/
def anteDispatch (cosmosAnteHandler evmAnteHandler : Handler) : Handler :=
  fun ctx tx simulate =>
    match tx.extOpts with
    | some opts =>
        match opts with
        | typeURL :: _ =>
            if typeURL = ethereumTxTypeURL then evmAnteHandler ctx tx simulate
            else if typeURL = dynamicFeeTypeURL then cosmosAnteHandler ctx tx simulate
            else (ctx, some (.unknownExtensionOptions typeURL))
        | [] => cosmosAnteHandler ctx tx simulate
    | none => cosmosAnteHandler ctx tx simulate

/-- The WASM-specific ante decorators for the Cosmos chain
(`app/ante/wasm_handler.go`, `wasmDecorators`). -/
def wasmDecorators : List Decorator :=
  [.limitSimulationGas, .countTX, .gasRegister, .txContracts]

/-- The Cosmos (non-EVM) decorator chain built by `NewCosmosAnteHandler`
(`app/ante`, unnamed source file): the leading reject/authz/setup
decorators, then `wasmDecorators`, then the core ante flow. -/
def cosmosDecorators : List Decorator :=
  [.rejectMessages, .authzLimiter, .setUpContext] ++ wasmDecorators ++
  [.circuitBreaker, .extensionOptions, .validateBasic, .txTimeoutHeight,
   .validateMemo, .minGasPrice, .consumeGasForTxSize, .deductFee,
   .setPubKey, .validateSigCount, .sigGasConsume, .sigVerification,
   .incrementSequence, .redundantRelay, .gasWanted]

/-- The EVM decorator chain built by `NewMonoEVMAnteHandler`
(`app/ante/evm_handler.go`). -/
def evmDecorators : List Decorator := [.evmMono, .txListener]

/-- The configuration bundle `HandlerOptions` (`app/ante`): every field
that is an interface, pointer or function value in Go — and can therefore
be nil — is an `Option`; `FeeMarketKeeper` is a Go struct value and
`MaxTxGasWanted` a `uint64`, neither of which can be nil. -/
structure HandlerOptions where
  accountKeeper : Option Unit
  bankKeeper : Option Unit
  feegrantKeeper : Option Unit
  signModeHandler : Option Unit
  signatureGasConsumer : Option Unit
  txFeeChecker : Option Unit
  extensionOptionChecker : Option Unit
  cdc : Option Unit
  evmKeeper : Option Unit
  feeMarketKeeper : Unit
  maxTxGasWanted : Nat
  pendingTxListener : Option Unit
  ibcKeeper : Option Unit
  nodeConfig : Option Unit
  wasmKeeper : Option Unit
  txCounterStoreService : Option Unit
  circuitKeeper : Option Unit
deriving DecidableEq, Repr

/-- Function `NewCosmosAnteHandler` (`app/ante`): composes `cosmosDecorators` into
a single handler. -/
def NewCosmosAnteHandler (_options : HandlerOptions) : Handler :=
  chainHandler cosmosDecorators

/-- Function `NewMonoEVMAnteHandler` (`app/ante/evm_handler.go`): composes
`evmDecorators` into a single handler. -/
def NewMonoEVMAnteHandler (_options : HandlerOptions) : Handler :=
  chainHandler evmDecorators

/-- The delegating `NewAnteHandler` constructor (`app/tokenfactory.go`
lines 115-180): thirteen nil checks, each failing with its named error,
then the dispatch closure over the two chain handlers. -/
def NewAnteHandler (options : HandlerOptions) : Except String Handler :=
  if options.accountKeeper = none then
    .error "account keeper is required for ante builder"
  else if options.bankKeeper = none then
    .error "bank keeper is required for ante builder"
  else if options.signModeHandler = none then
    .error "sign mode handler is required for ante builder"
  else if options.extensionOptionChecker = none then
    .error "extension option checker is required for ante builder"
  else if options.txFeeChecker = none then
    .error "tx fee checker is required for ante builder"
  else if options.signatureGasConsumer = none then
    .error "sig gas consumer is required for ante builder"
  else if options.cdc = none then
    .error "codec is required for ante builder"
  else if options.evmKeeper = none then
    .error "evm keeper is required for ante builder"
  else if options.nodeConfig = none then
    .error "wasm config is required for ante builder"
  else if options.txCounterStoreService = none then
    .error "wasm store service is required for ante builder"
  else if options.wasmKeeper = none then
    .error "wasm keeper is required for ante builder"
  else if options.circuitKeeper = none then
    .error "circuit keeper is required for ante builder"
  else if options.ibcKeeper = none then
    .error "ibc keeper is required for ante builder"
  else
    .ok (anteDispatch (NewCosmosAnteHandler options) (NewMonoEVMAnteHandler options))

/-- The Cosmos decorator list as the inline `NewAnteHandler` constructor
(unnamed app source file, lines 95-121) writes it out directly. -/
def cosmosDecoratorsInline : List Decorator :=
  [.rejectMessages, .authzLimiter, .setUpContext,
   .limitSimulationGas, .countTX, .gasRegister, .txContracts,
   .circuitBreaker, .extensionOptions, .validateBasic, .txTimeoutHeight,
   .validateMemo, .minGasPrice, .consumeGasForTxSize, .deductFee,
   .setPubKey, .validateSigCount, .sigGasConsume, .sigVerification,
   .incrementSequence, .redundantRelay, .gasWanted]

/-- The EVM decorator list as the inline constructor writes it out
(unnamed app source file, lines 125-133). -/
def evmDecoratorsInline : List Decorator := [.evmMono, .txListener]

/-- The inline `NewAnteHandler` constructor (unnamed app source file,
lines 53-157): the same thirteen nil checks, then the same dispatch
closure over chains composed from its own decorator lists. -/
def NewAnteHandlerInline (options : HandlerOptions) : Except String Handler :=
  if options.accountKeeper = none then
    .error "account keeper is required for ante builder"
  else if options.bankKeeper = none then
    .error "bank keeper is required for ante builder"
  else if options.signModeHandler = none then
    .error "sign mode handler is required for ante builder"
  else if options.extensionOptionChecker = none then
    .error "extension option checker is required for ante builder"
  else if options.txFeeChecker = none then
    .error "tx fee checker is required for ante builder"
  else if options.signatureGasConsumer = none then
    .error "sig gas consumer is required for ante builder"
  else if options.cdc = none then
    .error "codec is required for ante builder"
  else if options.evmKeeper = none then
    .error "evm keeper is required for ante builder"
  else if options.nodeConfig = none then
    .error "wasm config is required for ante builder"
  else if options.txCounterStoreService = none then
    .error "wasm store service is required for ante builder"
  else if options.wasmKeeper = none then
    .error "wasm keeper is required for ante builder"
  else if options.circuitKeeper = none then
    .error "circuit keeper is required for ante builder"
  else if options.ibcKeeper = none then
    .error "ibc keeper is required for ante builder"
  else
    .ok (anteDispatch (chainHandler cosmosDecoratorsInline)
          (chainHandler evmDecoratorsInline))

/-- The Cosmos-chain decorator ordering exactly as the table in §4.3 of
the specification lists it, step by step (defined from the spec text, to
be compared with the list the source builds). -/
def specCosmosOrdering : List Decorator :=
  [.rejectMessages, .authzLimiter,
   .setUpContext,
   .limitSimulationGas, .countTX, .gasRegister, .txContracts,
   .circuitBreaker,
   .extensionOptions, .validateBasic, .txTimeoutHeight, .validateMemo,
   .minGasPrice,
   .consumeGasForTxSize,
   .deductFee,
   .setPubKey, .validateSigCount, .sigGasConsume, .sigVerification,
   .incrementSequence,
   .redundantRelay,
   .gasWanted]

/-- Constant `DefaultChainID` (`app/ibc.go`). -/
def DefaultChainID : String := "kudora_12000-1"

/-- Constant `BaseDenom` (`app/ibc.go`). -/
def BaseDenom : String := "kud"

/-- Constant `DisplayDenom` (`app/ibc.go`). -/
def DisplayDenom : String := "kudos"

/-- Structure `evmtypes.EvmCoinInfo` restricted to the fields the repository sets. -/
structure EvmCoinInfo where
  denom : String
  extendedDenom : String
  displayDenom : String
  decimals : Nat
deriving DecidableEq, Repr

/-- The coin configuration shared by all three `ChainsCoinInfo` entries. -/
def kudoraCoinInfo : EvmCoinInfo :=
  { denom := BaseDenom, extendedDenom := BaseDenom,
    displayDenom := DisplayDenom, decimals := 18 }

/-- Map `ChainsCoinInfo` (`app/ibc.go`): the chain-id keyed coin-info map,
as an association list. -/
def ChainsCoinInfo : List (String × EvmCoinInfo) :=
  [(DefaultChainID, kudoraCoinInfo),
   ("kudora_12000", kudoraCoinInfo),
   ("kudora_9000-1", kudoraCoinInfo)]

/-- Outcomes of the external SDK calls `initEVM` makes: whether
`sdk.RegisterDenom` accepts the display and the base denomination
(it fails when a conflicting registration already exists) and whether
`EVMConfigurator.Configure` succeeds.  These live outside the repository,
so they are opaque environment facts here. -/
structure InitEnv where
  registerDisplayDenomOk : Bool
  registerBaseDenomOk : Bool
  configureOk : Bool
deriving DecidableEq, Repr

/-- The errors `initEVM` can return, one constructor per `return`-with-error
site in `app/ibc.go`. -/
inductive InitErr where
  | unknownChainID (chainID : String)
  | setBaseDenomFailed (denom : String)
  | parseEVMChainIDFailed (chainID : String)
  | configureFailed
deriving DecidableEq, Repr

/-- The externally visible actions `initEVM` performs, in order: successful
denomination registrations and the final EVM configuration. -/
inductive InitAction where
  | registerDenom (denom : String)
  | configureEVM
deriving DecidableEq, Repr

/-- Go `unicode.IsSpace` restricted to the characters relevant here
(ASCII whitespace). -/
def goIsSpace (c : Char) : Bool :=
  c = ' ' || c = '\t' || c = '\n' || c = '\x0b' || c = '\x0c' || c = '\r'

/-- Go `strings.TrimSpace`. -/
def goTrimSpace (s : String) : String :=
  ((s.toList.dropWhile goIsSpace).reverse.dropWhile goIsSpace).reverse.asString

/-- Go `strings.Split` at the character level: splits around every
occurrence of the separator character, keeping empty segments, always
returning at least one segment. -/
def splitChar (sep : Char) : List Char → List (List Char)
  | [] => [[]]
  | c :: rest =>
      if c = sep then [] :: splitChar sep rest
      else
        match splitChar sep rest with
        | [] => [[c]]
        | seg :: segs => (c :: seg) :: segs

/-- Go `strings.Split(s, sep)` for the single-character separators the
source uses ("-" and "_"). -/
def goSplit (s : String) (sep : Char) : List String :=
  (splitChar sep s.toList).map List.asString

/-- Go `strconv.ParseUint(s, 10, 64)`: a nonempty all-digit string whose
value fits in 64 bits. -/
def goParseUint64 (s : String) : Option Nat :=
  if s.isEmpty then none
  else if s.toList.all (fun c => c.isDigit) then
    let n := s.toList.foldl (fun acc c => acc * 10 + (c.toNat - 48)) 0
    if n < 2 ^ 64 then some n else none
  else none

/-- The `evmPart` local of `parseEVMChainID`: the segment after the last
underscore, truncated before the first dash. -/
def evmChainIDPart (trimmed : String) : String :=
  ((goSplit ((goSplit trimmed '_').getLastD "") '-')).headD ""

/-- Function `parseEVMChainID` (`app/ibc.go`): trim the chain id, accept it if it is
already numeric, otherwise take the part after the last underscore and
before the first dash and parse that. -/
def parseEVMChainID (chainID : String) : Except InitErr Nat :=
  if goTrimSpace chainID = "" then .error (.parseEVMChainIDFailed chainID)
  else
    match goParseUint64 (goTrimSpace chainID) with
    | some n => .ok n
    | none =>
        if (goSplit (goTrimSpace chainID) '_').length < 2 then
          .error (.parseEVMChainIDFailed chainID)
        else
          match goParseUint64 (evmChainIDPart (goTrimSpace chainID)) with
          | some n => .ok n
          | none => .error (.parseEVMChainIDFailed chainID)

/-- Function `setBaseDenom` (`app/ibc.go`): register the display denomination, then
the base denomination, failing with a wrapped error as soon as one
registration fails. -/
def setBaseDenom (env : InitEnv) (ci : EvmCoinInfo) :
    Except InitErr Unit × List InitAction :=
  if env.registerDisplayDenomOk then
    if env.registerBaseDenomOk then
      (.ok (), [.registerDenom ci.displayDenom, .registerDenom ci.denom])
    else (.error (.setBaseDenomFailed ci.denom), [.registerDenom ci.displayDenom])
  else (.error (.setBaseDenomFailed ci.displayDenom), [])

/-- The steps `initEVM` performs once the coin-info lookup has succeeded
(`app/ibc.go` lines 436-459): register the denominations, parse the EVM
chain id, configure the EVM, propagating the first failure. -/
def initEVMConfigure (env : InitEnv) (coinInfo : EvmCoinInfo) (chainID : String) :
    Except InitErr Unit × List InitAction :=
  match setBaseDenom env coinInfo with
  | (.error e, acts) => (.error e, acts)
  | (.ok _, acts) =>
      match parseEVMChainID chainID with
      | .error e => (.error e, acts)
      | .ok _ =>
          if env.configureOk then (.ok (), acts ++ [.configureEVM])
          else (.error .configureFailed, acts)

/-- The chain-id defaulting at the top of `initEVM`: the empty string is
replaced by `DefaultChainID`. -/
def resolveChainID (chainID : String) : String :=
  if chainID = "" then DefaultChainID else chainID

/-- The `baseID` local of `initEVM`: the part of the chain id before the
first dash (`strings.Split(chainID, "-")[0]`). -/
def baseChainID (chainID : String) : String :=
  (goSplit chainID '-').headD ""

/-- Function `initEVM` (`app/ibc.go` lines 417-460): default the chain id when
empty, look up the coin info first by the part before the first dash and
then by the full chain id, then register denominations, parse the EVM
chain id and configure the EVM.  The second component records the actions
performed. -/
def initEVM (env : InitEnv) (chainID0 : String) :
    Except InitErr Unit × List InitAction :=
  match (ChainsCoinInfo.lookup (baseChainID (resolveChainID chainID0))).orElse
      (fun _ => ChainsCoinInfo.lookup (resolveChainID chainID0)) with
  | none => (.error (.unknownChainID (resolveChainID chainID0)), [])
  | some coinInfo => initEVMConfigure env coinInfo (resolveChainID chainID0)

instance : DecidableEq (Except InitErr Unit) := fun a b =>
  match a, b with
  | .ok x, .ok y =>
      if h : x = y then .isTrue (by rw [h])
      else .isFalse (fun hc => h (by injection hc))
  | .error e, .error f =>
      if h : e = f then .isTrue (by rw [h])
      else .isFalse (fun hc => h (by injection hc))
  | .ok _, .error _ => .isFalse (fun hc => Except.noConfusion hc)
  | .error _, .ok _ => .isFalse (fun hc => Except.noConfusion hc)

/-- The process-wide once-initialization state behind `EVMAppOptions`
(`app/ibc.go`): whether `evmInitOnce` has fired, the stored `evmInitErr`
outcome, and how many times `initEVM` has actually run. -/
structure OnceState where
  done : Bool
  stored : Except InitErr Unit
  initRuns : Nat
deriving DecidableEq, Repr

/-- The state of the process before the first `EVMAppOptions` call. -/
def evmInitState : OnceState :=
  { done := false, stored := .ok (), initRuns := 0 }

/-- Function `EVMAppOptions` (`app/ibc.go` lines 407-413): `evmInitOnce.Do` runs
`initEVM` on the first call only and every call returns the stored
`evmInitErr`.  `sync.Once` serializes concurrent callers and blocks them
until the first run completes, so its behaviour is captured by this
state-passing form. -/
def EVMAppOptions (env : InitEnv) (s : OnceState) (chainID : String) :
    Except InitErr Unit × OnceState :=
  if s.done then (s.stored, s)
  else
    let r := (initEVM env chainID).1
    (r, { done := true, stored := r, initRuns := s.initRuns + 1 })

/-- A sequence of `EVMAppOptions` calls (any serialization of concurrent
callers), returning each call's result and the final state. -/
def EVMAppOptionsCalls (env : InitEnv) (s : OnceState) :
    List String → List (Except InitErr Unit) × OnceState
  | [] => ([], s)
  | id :: ids =>
      let rs := EVMAppOptions env s id
      let rest := EVMAppOptionsCalls env rs.2 ids
      (rs.1 :: rest.1, rest.2)

/-- The decorator list the dispatcher hands a transaction to, if any:
no (or empty) extension options and the dynamic-fee extension select the
Cosmos chain, the Ethereum-tx extension selects the EVM chain, any other
leading extension selects no chain at all. -/
def selectedDecorators (tx : Tx) : Option (List Decorator) :=
  match tx.extOpts with
  | some (typeURL :: _) =>
      if typeURL = ethereumTxTypeURL then some evmDecorators
      else if typeURL = dynamicFeeTypeURL then some cosmosDecorators
      else none
  | some [] => some cosmosDecorators
  | none => some cosmosDecorators

/-- A context with nonzero starting values, used to instantiate theorems
on concrete inputs. -/
def sampleCtx : Ctx :=
  { gasConsumed := 0, seq := 41, balance := 1000000, notifications := 0 }

/-- A transaction that passes every check, used to instantiate theorems on
concrete inputs. -/
def sampleTx : Tx :=
  { extOpts := none, msgsSupported := true, authzOk := true, simGasOk := true,
    txContractsOk := true, circuitOk := true, extOptValid := true,
    basicValid := true, timeoutOk := true, memoOk := true,
    minGasPriceOk := true, txSizeGas := 10, feeOk := true, feeAmount := 5000,
    pubKeyOk := true, sigCountOk := true, sigGas := 21, validSig := true,
    relayOk := true, gasWantedOk := true, evmMonoOk := true, evmMonoGas := 21000,
    observerCount := 2, observerFails := [] }

/-- A configuration bundle with every nil-able field present, used to
instantiate theorems on concrete inputs. -/
def fullOptions : HandlerOptions :=
  { accountKeeper := some (), bankKeeper := some (), feegrantKeeper := some (),
    signModeHandler := some (), signatureGasConsumer := some (),
    txFeeChecker := some (), extensionOptionChecker := some (), cdc := some (),
    evmKeeper := some (), feeMarketKeeper := (), maxTxGasWanted := 0,
    pendingTxListener := some (), ibcKeeper := some (), nodeConfig := some (),
    wasmKeeper := some (), txCounterStoreService := some (),
    circuitKeeper := some () }

/-- An environment in which every external SDK call succeeds, used to
instantiate theorems on concrete inputs. -/
def env0 : InitEnv :=
  { registerDisplayDenomOk := true, registerBaseDenomOk := true,
    configureOk := true }

/-- Inversion for the delegating constructor: the only handler it ever
returns is the dispatch closure over the two chain handlers. -/
theorem NewAnteHandler_ok {options : HandlerOptions} {h : Handler}
    (hok : NewAnteHandler options = .ok h) :
    h = anteDispatch (NewCosmosAnteHandler options) (NewMonoEVMAnteHandler options) := by
  unfold NewAnteHandler at hok
  by_cases h1 : options.accountKeeper = none
  · rw [if_pos h1] at hok; exact Except.noConfusion hok
  rw [if_neg h1] at hok
  by_cases h2 : options.bankKeeper = none
  · rw [if_pos h2] at hok; exact Except.noConfusion hok
  rw [if_neg h2] at hok
  by_cases h3 : options.signModeHandler = none
  · rw [if_pos h3] at hok; exact Except.noConfusion hok
  rw [if_neg h3] at hok
  by_cases h4 : options.extensionOptionChecker = none
  · rw [if_pos h4] at hok; exact Except.noConfusion hok
  rw [if_neg h4] at hok
  by_cases h5 : options.txFeeChecker = none
  · rw [if_pos h5] at hok; exact Except.noConfusion hok
  rw [if_neg h5] at hok
  by_cases h6 : options.signatureGasConsumer = none
  · rw [if_pos h6] at hok; exact Except.noConfusion hok
  rw [if_neg h6] at hok
  by_cases h7 : options.cdc = none
  · rw [if_pos h7] at hok; exact Except.noConfusion hok
  rw [if_neg h7] at hok
  by_cases h8 : options.evmKeeper = none
  · rw [if_pos h8] at hok; exact Except.noConfusion hok
  rw [if_neg h8] at hok
  by_cases h9 : options.nodeConfig = none
  · rw [if_pos h9] at hok; exact Except.noConfusion hok
  rw [if_neg h9] at hok
  by_cases h10 : options.txCounterStoreService = none
  · rw [if_pos h10] at hok; exact Except.noConfusion hok
  rw [if_neg h10] at hok
  by_cases h11 : options.wasmKeeper = none
  · rw [if_pos h11] at hok; exact Except.noConfusion hok
  rw [if_neg h11] at hok
  by_cases h12 : options.circuitKeeper = none
  · rw [if_pos h12] at hok; exact Except.noConfusion hok
  rw [if_neg h12] at hok
  by_cases h13 : options.ibcKeeper = none
  · rw [if_pos h13] at hok; exact Except.noConfusion hok
  rw [if_neg h13] at hok
  injection hok with h14
  exact h14.symm

/-- A decorator whose failure does not depend on the context blocks the
chain: no decorator placed after it (and absent before it) ever executes,
and the whole run returns an error. -/
theorem runChainAux_blocked (tx : Tx) (simulate : Bool) (d x : Decorator)
    (hblock : ∀ c, ∃ e, runDecorator d c tx simulate = Except.error e)
    (hxd : x ≠ d) :
    ∀ (front : List Decorator) (tail : List Decorator), x ∉ front → ∀ ctx,
      x ∉ (runChainAux (front ++ d :: tail) ctx tx simulate).1 ∧
      ∃ e, (runChainAux (front ++ d :: tail) ctx tx simulate).2 = Except.error e := by
  intro front
  induction front with
  | nil =>
      intro tail _ ctx
      obtain ⟨e, he⟩ := hblock ctx
      simp [runChainAux, he, hxd]
  | cons a front ih =>
      intro tail hx ctx
      have hxa : x ≠ a := fun h => hx (h ▸ List.mem_cons_self a front)
      have hxf : x ∉ front := fun h => hx (List.mem_cons_of_mem a h)
      match ha : runDecorator a ctx tx simulate with
      | .error e => simp [runChainAux, ha, hxa]
      | .ok ctx' =>
          have := ih tail hxf ctx'
          simp only [List.cons_append, runChainAux, ha]
          exact ⟨by simpa [hxa] using this.1, this.2⟩

/-- Every decorator except the sequence incrementer preserves the
sequence counter; the incrementer advances it by one. -/
theorem runDecorator_seq {d : Decorator} {ctx c' : Ctx} {tx : Tx}
    {simulate : Bool} (h : runDecorator d ctx tx simulate = .ok c') :
    c'.seq = if d = .incrementSequence then ctx.seq + 1 else ctx.seq := by
  cases d <;>
    simp only [runDecorator] at h <;>
    (try split at h) <;>
    (try cases h) <;>
    simp_all

/-- A successful chain run advances the sequence counter by exactly the
number of sequence-increment decorators in the chain. -/
theorem runChainAux_seq (tx : Tx) (simulate : Bool) :
    ∀ (ds : List Decorator) (ctx c' : Ctx),
      (runChainAux ds ctx tx simulate).2 = .ok c' →
      c'.seq = ctx.seq + ds.count .incrementSequence := by
  intro ds
  induction ds with
  | nil =>
      intro ctx c' h
      simp only [runChainAux] at h
      cases h
      simp
  | cons d rest ih =>
      intro ctx c' h
      match hd : runDecorator d ctx tx simulate with
      | .error e => simp [runChainAux, hd] at h
      | .ok ctx' =>
          simp only [runChainAux, hd] at h
          have hs := ih ctx' c' h
          have hstep := runDecorator_seq hd
          by_cases hdi : d = Decorator.incrementSequence
          · subst hdi
            simp only [if_pos rfl] at hstep
            rw [hs, hstep, List.count_cons]
            simp [Nat.add_assoc, Nat.add_comm 1]
          · simp only [if_neg hdi] at hstep
            rw [hs, hstep, List.count_cons]
            simp [hdi]

/-- Once the `sync.Once` state is spent, further calls neither run the
initializer again nor change the stored outcome. -/
theorem EVMAppOptionsCalls_done (env : InitEnv) (s : OnceState)
    (hdone : s.done = true) :
    ∀ ids : List String,
      EVMAppOptionsCalls env s ids = (List.replicate ids.length s.stored, s) := by
  intro ids
  induction ids with
  | nil => simp [EVMAppOptionsCalls]
  | cons id ids ih =>
      simp [EVMAppOptionsCalls, EVMAppOptions, hdone, ih, List.replicate_succ]

/-- The handler a chain presents to the dispatcher either returns the
pre-call context with the chain's error, or the fully mutated context of
a successful run. -/
theorem chainHandler_spec (ds : List Decorator) (ctx : Ctx) (tx : Tx) (simulate : Bool) :
    (∀ e, (chainHandler ds ctx tx simulate).2 = some e →
      (chainHandler ds ctx tx simulate).1 = ctx) ∧
    ((chainHandler ds ctx tx simulate).2 = none →
      ∃ c, (runChainAux ds ctx tx simulate).2 = .ok c ∧
        (chainHandler ds ctx tx simulate).1 = c) := by
  cases hres : (runChainAux ds ctx tx simulate).2 with
  | ok c => simp [chainHandler, hres]
  | error e => simp [chainHandler, hres]

/-- Function `parseEVMChainID` never produces the unknown-chain-id error (all its
failure sites return the parse-failure error). -/
theorem parseEVMChainID_no_unknown (s cid : String) :
    parseEVMChainID s ≠ .error (.unknownChainID cid) := by
  unfold parseEVMChainID
  intro h
  repeat' split at h
  all_goals simp_all

/-- Function `setBaseDenom` either succeeds or fails with a set-base-denom error. -/
theorem setBaseDenom_no_unknown (env : InitEnv) (ci : EvmCoinInfo) :
    (setBaseDenom env ci).1 = .ok () ∨
    ∃ d, (setBaseDenom env ci).1 = .error (.setBaseDenomFailed d) := by
  unfold setBaseDenom
  split_ifs <;> simp

/-- The post-lookup portion of `initEVM` never produces the
unknown-chain-id error. -/
theorem initEVMConfigure_no_unknown (env : InitEnv) (ci : EvmCoinInfo)
    (chainID s : String) :
    (initEVMConfigure env ci chainID).1 ≠ .error (.unknownChainID s) := by
  intro hcontra
  unfold initEVMConfigure at hcontra
  rcases hbd : setBaseDenom env ci with ⟨res, acts⟩
  rw [hbd] at hcontra
  rcases setBaseDenom_no_unknown env ci with hok | ⟨d, herr⟩
  · rw [hbd] at hok
    simp only at hok
    subst hok
    simp only at hcontra
    rcases hp : parseEVMChainID chainID with e | n
    · rw [hp] at hcontra
      simp only at hcontra
      injection hcontra with he
      rw [he] at hp
      exact parseEVMChainID_no_unknown chainID s hp
    · rw [hp] at hcontra
      simp only at hcontra
      split_ifs at hcontra <;> simp_all
  · rw [hbd] at herr
    simp only at herr
    subst herr
    simp at hcontra

/-- The two registered extension type URLs are distinct strings. -/
theorem dynamicFee_ne_ethereumTx : dynamicFeeTypeURL ≠ ethereumTxTypeURL := by
  decide

/-- Claim C1: the handler returned by `NewAnteHandler` dispatches on the
first extension option: zero or absent extension options run the Cosmos
chain handler only; a leading Ethereum-tx type URL runs the EVM chain
handler only; a leading dynamic-fee type URL runs the Cosmos chain
handler; any other leading type URL runs neither chain and returns an
`UnknownExtensionOptions` error. -/
theorem claim1_extension_dispatch :
    (∀ (options : HandlerOptions) (h : Handler), NewAnteHandler options = .ok h →
      h = anteDispatch (NewCosmosAnteHandler options) (NewMonoEVMAnteHandler options)) ∧
    (∀ (cosmosH evmH : Handler) (ctx : Ctx) (tx : Tx) (simulate : Bool),
      ((tx.extOpts = none ∨ tx.extOpts = some []) →
        anteDispatch cosmosH evmH ctx tx simulate = cosmosH ctx tx simulate) ∧
      (∀ rest, tx.extOpts = some (ethereumTxTypeURL :: rest) →
        anteDispatch cosmosH evmH ctx tx simulate = evmH ctx tx simulate) ∧
      (∀ rest, tx.extOpts = some (dynamicFeeTypeURL :: rest) →
        anteDispatch cosmosH evmH ctx tx simulate = cosmosH ctx tx simulate) ∧
      (∀ typeURL rest, tx.extOpts = some (typeURL :: rest) →
        typeURL ≠ ethereumTxTypeURL → typeURL ≠ dynamicFeeTypeURL →
        anteDispatch cosmosH evmH ctx tx simulate =
          (ctx, some (AdmissionError.unknownExtensionOptions typeURL)))) := by
  constructor
  · intro options h hok
    exact NewAnteHandler_ok hok
  · intro cosmosH evmH ctx tx simulate
    refine ⟨?_, ?_, ?_, ?_⟩
    · rintro (hcase | hcase) <;> simp [anteDispatch, hcase]
    · intro rest hcase
      simp [anteDispatch, hcase]
    · intro rest hcase
      simp [anteDispatch, hcase, dynamicFee_ne_ethereumTx]
    · intro typeURL rest hcase hne1 hne2
      simp [anteDispatch, hcase, hne1, hne2]

/-- Witness for C1 at a concrete input: a transaction with an unknown
leading extension option is rejected with the offending type URL. -/
theorem claim1_extension_dispatch_witness :
    anteDispatch (chainHandler cosmosDecorators) (chainHandler evmDecorators)
        sampleCtx { sampleTx with extOpts := some ["/unknown.v1.Bogus"] } false =
      (sampleCtx, some (AdmissionError.unknownExtensionOptions "/unknown.v1.Bogus")) :=
  (claim1_extension_dispatch.2 (chainHandler cosmosDecorators)
      (chainHandler evmDecorators) sampleCtx
      { sampleTx with extOpts := some ["/unknown.v1.Bogus"] } false).2.2.2
    "/unknown.v1.Bogus" [] rfl (by decide) (by decide)

/-- Claim C2: when the first extension option's type URL is neither known
identifier, the handler returned by `NewAnteHandler` returns the
`UnknownExtensionOptions` error carrying the offending URL, the returned
context is exactly the input context (in particular no gas is consumed),
and the result is independent of both chain handlers (neither chain is
invoked). -/
theorem claim2_unknown_extension_rejection :
    ∀ (options : HandlerOptions) (h : Handler), NewAnteHandler options = .ok h →
    ∀ (ctx : Ctx) (tx : Tx) (simulate : Bool) (typeURL : String) (rest : List String),
      tx.extOpts = some (typeURL :: rest) →
      typeURL ≠ ethereumTxTypeURL → typeURL ≠ dynamicFeeTypeURL →
      h ctx tx simulate = (ctx, some (AdmissionError.unknownExtensionOptions typeURL)) ∧
      (h ctx tx simulate).1 = ctx ∧
      (h ctx tx simulate).1.gasConsumed = ctx.gasConsumed ∧
      ∀ (cosmosH evmH : Handler),
        anteDispatch cosmosH evmH ctx tx simulate =
          (ctx, some (AdmissionError.unknownExtensionOptions typeURL)) := by
  intro options h hok ctx tx simulate typeURL rest hext hne1 hne2
  have hd := NewAnteHandler_ok hok
  subst hd
  have key : ∀ (cH eH : Handler),
      anteDispatch cH eH ctx tx simulate =
        (ctx, some (AdmissionError.unknownExtensionOptions typeURL)) := by
    intro cH eH
    simp [anteDispatch, hext, hne1, hne2]
  exact ⟨key _ _, by rw [key _ _], by rw [key _ _], key⟩

/-- Witness for C2 at a concrete input: the full configuration bundle
yields a handler, and that handler rejects a bogus extension option while
returning the input context. -/
theorem claim2_unknown_extension_rejection_witness :
    anteDispatch (NewCosmosAnteHandler fullOptions) (NewMonoEVMAnteHandler fullOptions)
        sampleCtx { sampleTx with extOpts := some ["/unknown.v1.Bogus"] } true =
      (sampleCtx, some (AdmissionError.unknownExtensionOptions "/unknown.v1.Bogus")) :=
  (claim2_unknown_extension_rejection fullOptions _ rfl sampleCtx
      { sampleTx with extOpts := some ["/unknown.v1.Bogus"] } true
      "/unknown.v1.Bogus" [] rfl (by decide) (by decide)).1

/-- Claim C4: `NewCosmosAnteHandler` composes its decorators in exactly
the order the spec's Cosmos-chain table requires; in particular fee
deduction strictly precedes the signature-gas charge and signature
verification. -/
theorem claim4_cosmos_ordering :
    cosmosDecorators = specCosmosOrdering ∧
    cosmosDecorators.indexOf Decorator.deductFee <
      cosmosDecorators.indexOf Decorator.sigGasConsume ∧
    cosmosDecorators.indexOf Decorator.deductFee <
      cosmosDecorators.indexOf Decorator.sigVerification := by
  refine ⟨by decide, by decide, by decide⟩

/-- Claim C9: the inline `NewAnteHandler` and the delegating
`NewAnteHandler` build identical decorator sequences, and the two
constructors agree on every configuration bundle, so the handlers they
return produce equal results on every input. -/
theorem claim9_inline_delegating_equivalence :
    cosmosDecoratorsInline = cosmosDecorators ∧
    evmDecoratorsInline = evmDecorators ∧
    (∀ options : HandlerOptions, NewAnteHandlerInline options = NewAnteHandler options) ∧
    ∀ (options : HandlerOptions) (h h' : Handler),
      NewAnteHandlerInline options = .ok h → NewAnteHandler options = .ok h' →
      ∀ (ctx : Ctx) (tx : Tx) (simulate : Bool), h ctx tx simulate = h' ctx tx simulate := by
  refine ⟨by decide, by decide, fun options => rfl, ?_⟩
  intro options h h' hok hok' ctx tx simulate
  have : NewAnteHandlerInline options = NewAnteHandler options := rfl
  rw [this, hok'] at hok
  injection hok with hh
  rw [hh]

/-- Witness for C9 at a concrete input: both constructors return a handler
on the full bundle and the two handlers agree on a sample transaction. -/
theorem claim9_inline_delegating_equivalence_witness :
    anteDispatch (chainHandler cosmosDecoratorsInline) (chainHandler evmDecoratorsInline)
        sampleCtx sampleTx false =
      anteDispatch (NewCosmosAnteHandler fullOptions) (NewMonoEVMAnteHandler fullOptions)
        sampleCtx sampleTx false :=
  claim9_inline_delegating_equivalence.2.2.2 fullOptions _ _ rfl rfl sampleCtx sampleTx false

/-- Complete case analysis of the delegating constructor: either one of
the thirteen checked fields is missing and construction fails with an
error, or all thirteen are present and it returns the dispatch closure. -/
theorem NewAnteHandler_cases (options : HandlerOptions) :
    ((options.accountKeeper = none ∨ options.bankKeeper = none ∨
      options.signModeHandler = none ∨ options.extensionOptionChecker = none ∨
      options.txFeeChecker = none ∨ options.signatureGasConsumer = none ∨
      options.cdc = none ∨ options.evmKeeper = none ∨ options.nodeConfig = none ∨
      options.txCounterStoreService = none ∨ options.wasmKeeper = none ∨
      options.circuitKeeper = none ∨ options.ibcKeeper = none) ∧
      ∃ msg, NewAnteHandler options = .error msg) ∨
    ((options.accountKeeper ≠ none ∧ options.bankKeeper ≠ none ∧
      options.signModeHandler ≠ none ∧ options.extensionOptionChecker ≠ none ∧
      options.txFeeChecker ≠ none ∧ options.signatureGasConsumer ≠ none ∧
      options.cdc ≠ none ∧ options.evmKeeper ≠ none ∧ options.nodeConfig ≠ none ∧
      options.txCounterStoreService ≠ none ∧ options.wasmKeeper ≠ none ∧
      options.circuitKeeper ≠ none ∧ options.ibcKeeper ≠ none) ∧
      NewAnteHandler options =
        .ok (anteDispatch (NewCosmosAnteHandler options) (NewMonoEVMAnteHandler options))) := by
  unfold NewAnteHandler
  by_cases h1 : options.accountKeeper = none
  · rw [if_pos h1]
    exact .inl ⟨.inl h1, _, rfl⟩
  rw [if_neg h1]
  by_cases h2 : options.bankKeeper = none
  · rw [if_pos h2]
    exact .inl ⟨.inr (.inl h2), _, rfl⟩
  rw [if_neg h2]
  by_cases h3 : options.signModeHandler = none
  · rw [if_pos h3]
    exact .inl ⟨.inr (.inr (.inl h3)), _, rfl⟩
  rw [if_neg h3]
  by_cases h4 : options.extensionOptionChecker = none
  · rw [if_pos h4]
    exact .inl ⟨.inr (.inr (.inr (.inl h4))), _, rfl⟩
  rw [if_neg h4]
  by_cases h5 : options.txFeeChecker = none
  · rw [if_pos h5]
    exact .inl ⟨.inr (.inr (.inr (.inr (.inl h5)))), _, rfl⟩
  rw [if_neg h5]
  by_cases h6 : options.signatureGasConsumer = none
  · rw [if_pos h6]
    exact .inl ⟨.inr (.inr (.inr (.inr (.inr (.inl h6))))), _, rfl⟩
  rw [if_neg h6]
  by_cases h7 : options.cdc = none
  · rw [if_pos h7]
    exact .inl ⟨.inr (.inr (.inr (.inr (.inr (.inr (.inl h7)))))), _, rfl⟩
  rw [if_neg h7]
  by_cases h8 : options.evmKeeper = none
  · rw [if_pos h8]
    exact .inl ⟨.inr (.inr (.inr (.inr (.inr (.inr (.inr (.inl h8))))))), _, rfl⟩
  rw [if_neg h8]
  by_cases h9 : options.nodeConfig = none
  · rw [if_pos h9]
    exact .inl ⟨.inr (.inr (.inr (.inr (.inr (.inr (.inr (.inr (.inl h9)))))))), _, rfl⟩
  rw [if_neg h9]
  by_cases h10 : options.txCounterStoreService = none
  · rw [if_pos h10]
    exact .inl ⟨.inr (.inr (.inr (.inr (.inr (.inr (.inr (.inr (.inr (.inl h10))))))))), _, rfl⟩
  rw [if_neg h10]
  by_cases h11 : options.wasmKeeper = none
  · rw [if_pos h11]
    exact .inl ⟨.inr (.inr (.inr (.inr (.inr (.inr (.inr (.inr (.inr (.inr (.inl h11)))))))))), _, rfl⟩
  rw [if_neg h11]
  by_cases h12 : options.circuitKeeper = none
  · rw [if_pos h12]
    exact .inl ⟨.inr (.inr (.inr (.inr (.inr (.inr (.inr (.inr (.inr (.inr (.inr (.inl h12))))))))))), _, rfl⟩
  rw [if_neg h12]
  by_cases h13 : options.ibcKeeper = none
  · rw [if_pos h13]
    exact .inl ⟨.inr (.inr (.inr (.inr (.inr (.inr (.inr (.inr (.inr (.inr (.inr (.inr h13))))))))))), _, rfl⟩
  rw [if_neg h13]
  exact .inr ⟨⟨h1, h2, h3, h4, h5, h6, h7, h8, h9, h10, h11, h12, h13⟩, rfl⟩

/-- Claim C3 counterexample: a configuration bundle whose fee-grant store
is nil — a field the claim says must make construction fail — for which
`NewAnteHandler` nevertheless succeeds and returns a handler. -/
theorem claim3_missing_feegrant_counterexample :
    ({ fullOptions with feegrantKeeper := none } : HandlerOptions).feegrantKeeper = none ∧
    (NewAnteHandler { fullOptions with feegrantKeeper := none }).isOk = true :=
  ⟨rfl, rfl⟩

/-- Claim C3 (amended): `NewAnteHandler` succeeds exactly when the
thirteen fields it checks (account store, balance store, sign-mode
registry, extension-option checker, fee-checker policy, signature-gas
consumer, codec, EVM keeper, WASM node config, tx-counter store, WASM
keeper, circuit-breaker keeper, IBC keeper) are all present, failing with
a named error otherwise; the fee-grant store, fee-market keeper,
max-gas-wanted and pending-tx listener are not construction-time
validated. -/
theorem claim3_validation_amended :
    ∀ options : HandlerOptions,
      ((NewAnteHandler options).isOk = true ↔
        (options.accountKeeper ≠ none ∧ options.bankKeeper ≠ none ∧
         options.signModeHandler ≠ none ∧ options.extensionOptionChecker ≠ none ∧
         options.txFeeChecker ≠ none ∧ options.signatureGasConsumer ≠ none ∧
         options.cdc ≠ none ∧ options.evmKeeper ≠ none ∧ options.nodeConfig ≠ none ∧
         options.txCounterStoreService ≠ none ∧ options.wasmKeeper ≠ none ∧
         options.circuitKeeper ≠ none ∧ options.ibcKeeper ≠ none)) ∧
      ((NewAnteHandler options).isOk = false →
        ∃ msg, NewAnteHandler options = .error msg) := by
  intro options
  constructor
  · constructor
    · intro hisok
      rcases NewAnteHandler_cases options with ⟨_, msg, herr⟩ | ⟨hpres, _⟩
      · rw [herr] at hisok
        simp [Except.isOk, Except.toBool] at hisok
      · exact hpres
    · intro hall
      rcases NewAnteHandler_cases options with ⟨hmiss, _, _⟩ | ⟨_, hok⟩
      · exfalso
        rcases hmiss with h | h | h | h | h | h | h | h | h | h | h | h | h <;> simp_all
      · rw [hok]
        simp [Except.isOk, Except.toBool]
  · intro hfalse
    rcases NewAnteHandler_cases options with ⟨_, msg, herr⟩ | ⟨_, hok⟩
    · exact ⟨msg, herr⟩
    · rw [hok] at hfalse
      simp [Except.isOk, Except.toBool] at hfalse

/-- Witness for the amended C3 at concrete inputs: a bundle missing only
the WASM keeper fails with a named error, and the full bundle's success
certifies the presence of the account store. -/
theorem claim3_validation_amended_witness :
    (∃ msg, NewAnteHandler { fullOptions with wasmKeeper := none } = .error msg) ∧
    fullOptions.accountKeeper ≠ none :=
  ⟨(claim3_validation_amended { fullOptions with wasmKeeper := none }).2 rfl,
   ((claim3_validation_amended fullOptions).1.mp rfl).1⟩

/-- Claim C5: in the Cosmos chain, a transaction with a bad signature
(outside simulation) never reaches the sequence-increment decorator — the
run aborts with an error — and any transaction that passes the whole
chain has its sequence advanced by exactly one. -/
theorem claim5_sequence_increment :
    ∀ (ctx : Ctx) (tx : Tx),
      (tx.validSig = false →
        Decorator.incrementSequence ∉ (runChainAux cosmosDecorators ctx tx false).1 ∧
        ∃ e, (runChainAux cosmosDecorators ctx tx false).2 = Except.error e) ∧
      ∀ (simulate : Bool) (c' : Ctx),
        (runChainAux cosmosDecorators ctx tx simulate).2 = .ok c' →
        c'.seq = ctx.seq + 1 := by
  intro ctx tx
  constructor
  · intro hsig
    have hblock : ∀ c, ∃ e,
        runDecorator Decorator.sigVerification c tx false = Except.error e := by
      intro c
      refine ⟨.invalidSignature, ?_⟩
      simp [runDecorator, hsig]
    have hsplit : cosmosDecorators =
        [Decorator.rejectMessages, .authzLimiter, .setUpContext, .limitSimulationGas,
         .countTX, .gasRegister, .txContracts, .circuitBreaker, .extensionOptions,
         .validateBasic, .txTimeoutHeight, .validateMemo, .minGasPrice,
         .consumeGasForTxSize, .deductFee, .setPubKey, .validateSigCount,
         .sigGasConsume] ++ Decorator.sigVerification ::
        [Decorator.incrementSequence, .redundantRelay, .gasWanted] := by decide
    rw [hsplit]
    exact runChainAux_blocked tx false Decorator.sigVerification
      Decorator.incrementSequence hblock (by decide) _ _ (by decide) ctx
  · intro simulate c' hok
    have hseq := runChainAux_seq tx simulate cosmosDecorators ctx c' hok
    have hcount : cosmosDecorators.count Decorator.incrementSequence = 1 := by decide
    rw [hcount] at hseq
    exact hseq

/-- Witness for C5 at concrete inputs: with a bad signature the increment
decorator never runs; with a valid signature the whole chain ends with the
sequence counter advanced from 41 to 42. -/
theorem claim5_sequence_increment_witness :
    Decorator.incrementSequence ∉
      (runChainAux cosmosDecorators sampleCtx { sampleTx with validSig := false } false).1 ∧
    ({ gasConsumed := 31, seq := 42, balance := 995000, notifications := 0 } : Ctx).seq =
      sampleCtx.seq + 1 :=
  ⟨((claim5_sequence_increment sampleCtx { sampleTx with validSig := false }).1 rfl).1,
   (claim5_sequence_increment sampleCtx sampleTx).2 false
     { gasConsumed := 31, seq := 42, balance := 995000, notifications := 0 } rfl⟩

/-- Which chain handler `anteDispatch` hands the transaction to, in terms
of `selectedDecorators`. -/
theorem anteDispatch_cases (cH eH : Handler) (ctx : Ctx) (tx : Tx) (simulate : Bool) :
    (anteDispatch cH eH ctx tx simulate = cH ctx tx simulate ∧
      selectedDecorators tx = some cosmosDecorators) ∨
    (anteDispatch cH eH ctx tx simulate = eH ctx tx simulate ∧
      selectedDecorators tx = some evmDecorators) ∨
    (∃ typeURL,
      anteDispatch cH eH ctx tx simulate =
        (ctx, some (.unknownExtensionOptions typeURL)) ∧
      selectedDecorators tx = none) := by
  match hext : tx.extOpts with
  | none => exact .inl ⟨by simp [anteDispatch, hext], by simp [selectedDecorators, hext]⟩
  | some [] => exact .inl ⟨by simp [anteDispatch, hext], by simp [selectedDecorators, hext]⟩
  | some (typeURL :: rest) =>
      by_cases h1 : typeURL = ethereumTxTypeURL
      · exact .inr (.inl ⟨by simp [anteDispatch, hext, h1],
          by simp [selectedDecorators, hext, h1]⟩)
      by_cases h2 : typeURL = dynamicFeeTypeURL
      · exact .inl ⟨by simp [anteDispatch, hext, h1, h2, dynamicFee_ne_ethereumTx],
          by simp [selectedDecorators, hext, h1, h2, dynamicFee_ne_ethereumTx]⟩
      exact .inr (.inr ⟨typeURL, by simp [anteDispatch, hext, h1, h2],
        by simp [selectedDecorators, hext, h1, h2]⟩)

/-- Claim C6: for the handler returned by `NewAnteHandler`, a non-nil
error comes with the untouched pre-call context, a nil error comes with
the context produced by the full run of the selected chain, and inside a
chain the first decorator failure aborts the remainder — the error of a
failing head decorator is the verdict of the whole chain, whatever
decorators follow. -/
theorem claim6_exit_contract :
    ∀ (options : HandlerOptions) (h : Handler), NewAnteHandler options = .ok h →
    ∀ (ctx : Ctx) (tx : Tx) (simulate : Bool),
      (∀ e, (h ctx tx simulate).2 = some e → (h ctx tx simulate).1 = ctx) ∧
      ((h ctx tx simulate).2 = none →
        ∃ ds c, selectedDecorators tx = some ds ∧
          (runChainAux ds ctx tx simulate).2 = .ok c ∧ (h ctx tx simulate).1 = c) ∧
      (∀ (d : Decorator) (rest : List Decorator) (e : AdmissionError),
        runDecorator d ctx tx simulate = .error e →
        (runChainAux (d :: rest) ctx tx simulate).2 = .error e) := by
  intro options h hok ctx tx simulate
  have hd := NewAnteHandler_ok hok
  subst hd
  have hcosmos : NewCosmosAnteHandler options = chainHandler cosmosDecorators := rfl
  have hevm : NewMonoEVMAnteHandler options = chainHandler evmDecorators := rfl
  rw [hcosmos, hevm]
  have habort : ∀ (d : Decorator) (rest : List Decorator) (e : AdmissionError),
      runDecorator d ctx tx simulate = .error e →
      (runChainAux (d :: rest) ctx tx simulate).2 = .error e := by
    intro d rest e he
    simp [runChainAux, he]
  rcases anteDispatch_cases (chainHandler cosmosDecorators) (chainHandler evmDecorators)
      ctx tx simulate with ⟨heq, hsel⟩ | ⟨heq, hsel⟩ | ⟨typeURL, heq, hsel⟩
  · rw [heq]
    refine ⟨(chainHandler_spec cosmosDecorators ctx tx simulate).1, ?_, habort⟩
    intro hnone
    obtain ⟨c, hc1, hc2⟩ := (chainHandler_spec cosmosDecorators ctx tx simulate).2 hnone
    exact ⟨cosmosDecorators, c, hsel, hc1, hc2⟩
  · rw [heq]
    refine ⟨(chainHandler_spec evmDecorators ctx tx simulate).1, ?_, habort⟩
    intro hnone
    obtain ⟨c, hc1, hc2⟩ := (chainHandler_spec evmDecorators ctx tx simulate).2 hnone
    exact ⟨evmDecorators, c, hsel, hc1, hc2⟩
  · rw [heq]
    exact ⟨fun e _ => rfl, fun hnone => by simp at hnone, habort⟩

/-- Witness for C6 at a concrete input: a bad-signature transaction is
rejected and the handler returns the pre-call context unchanged. -/
theorem claim6_exit_contract_witness :
    (anteDispatch (NewCosmosAnteHandler fullOptions) (NewMonoEVMAnteHandler fullOptions)
        sampleCtx { sampleTx with validSig := false } false).1 = sampleCtx :=
  (claim6_exit_contract fullOptions _ rfl sampleCtx
      { sampleTx with validSig := false } false).1 AdmissionError.invalidSignature rfl

/-- Claim C7: the EVM chain is exactly the fused mono-decorator followed
by the pending-tx notifier; when the mono-decorator rejects, the notifier
never executes and the rejection is the chain's verdict; and the run is
entirely independent of observer failures, so observer failures cannot
change the admission outcome. -/
theorem claim7_evm_chain :
    evmDecorators = [Decorator.evmMono, Decorator.txListener] ∧
    (∀ (ctx : Ctx) (tx : Tx) (simulate : Bool) (e : AdmissionError),
      runDecorator Decorator.evmMono ctx tx simulate = .error e →
      (runChainAux evmDecorators ctx tx simulate).1 = [Decorator.evmMono] ∧
      (runChainAux evmDecorators ctx tx simulate).2 = .error e ∧
      Decorator.txListener ∉ (runChainAux evmDecorators ctx tx simulate).1) ∧
    ∀ (ctx : Ctx) (tx : Tx) (simulate : Bool) (fails : List Bool),
      runChainAux evmDecorators ctx { tx with observerFails := fails } simulate =
        runChainAux evmDecorators ctx tx simulate := by
  refine ⟨rfl, ?_, ?_⟩
  · intro ctx tx simulate e he
    refine ⟨?_, ?_, ?_⟩ <;> simp [evmDecorators, runChainAux, he]
  · intro ctx tx simulate fails
    rfl

/-- Witness for C7 at a concrete input: a transaction failing the fused
EVM checks is rejected with the notifier never executing. -/
theorem claim7_evm_chain_witness :
    (runChainAux evmDecorators sampleCtx { sampleTx with evmMonoOk := false } true).1 =
      [Decorator.evmMono] ∧
    (runChainAux evmDecorators sampleCtx { sampleTx with evmMonoOk := false } true).2 =
      Except.error AdmissionError.evmMonoRejected :=
  ⟨(claim7_evm_chain.2.1 sampleCtx { sampleTx with evmMonoOk := false } true
      AdmissionError.evmMonoRejected rfl).1,
   (claim7_evm_chain.2.1 sampleCtx { sampleTx with evmMonoOk := false } true
      AdmissionError.evmMonoRejected rfl).2.1⟩

/-- Claim C8: starting from the initial process state, any sequence of
`EVMAppOptions` calls (any serialization of concurrent callers — the
`sync.Once` primitive serializes them) runs the initializer exactly once,
and every call returns the outcome of that single first run. -/
theorem claim8_once_initialization :
    ∀ (env : InitEnv) (id : String) (ids : List String),
      (EVMAppOptionsCalls env evmInitState (id :: ids)).2 =
        { done := true, stored := (initEVM env id).1, initRuns := 1 } ∧
      (EVMAppOptionsCalls env evmInitState (id :: ids)).1 =
        List.replicate (ids.length + 1) (initEVM env id).1 := by
  intro env id ids
  have hfirst : EVMAppOptions env evmInitState id =
      ((initEVM env id).1,
       { done := true, stored := (initEVM env id).1, initRuns := 1 }) := rfl
  have hrest := EVMAppOptionsCalls_done env
      { done := true, stored := (initEVM env id).1, initRuns := 1 } rfl ids
  constructor <;> simp [EVMAppOptionsCalls, hfirst, hrest, List.replicate_succ]

/-- Witness for C8 at a concrete input: two sequential calls with
different chain ids run the initializer once and both return the first
call's outcome. -/
theorem claim8_once_initialization_witness :
    (EVMAppOptionsCalls env0 evmInitState ["foochain", "kudora_12000-1"]).2 =
      { done := true, stored := .error (.unknownChainID "foochain"), initRuns := 1 } ∧
    (EVMAppOptionsCalls env0 evmInitState ["foochain", "kudora_12000-1"]).1 =
      List.replicate 2 (.error (.unknownChainID "foochain")) := by
  have h := claim8_once_initialization env0 "foochain" ["kudora_12000-1"]
  exact ⟨h.1, h.2⟩

/-- Claim C10: `initEVM` treats the empty chain id as the default chain
id; it fails with the unknown-chain-id error exactly when neither the
part of the (resolved) chain id before the first dash nor the full chain
id is a key of `ChainsCoinInfo`; and in that case it performs no action —
no denomination is registered and the EVM is not configured. -/
theorem claim10_initEVM_unknown_chain :
    ∀ (env : InitEnv) (chainID : String),
      initEVM env "" = initEVM env DefaultChainID ∧
      resolveChainID "" = DefaultChainID ∧
      ((initEVM env chainID).1 =
          .error (.unknownChainID (resolveChainID chainID)) ↔
        (ChainsCoinInfo.lookup (baseChainID (resolveChainID chainID)) = none ∧
         ChainsCoinInfo.lookup (resolveChainID chainID) = none)) ∧
      ((ChainsCoinInfo.lookup (baseChainID (resolveChainID chainID)) = none ∧
        ChainsCoinInfo.lookup (resolveChainID chainID) = none) →
        initEVM env chainID =
          (.error (.unknownChainID (resolveChainID chainID)), [])) := by
  intro env chainID
  refine ⟨rfl, rfl, ?_, ?_⟩
  · cases hb : ChainsCoinInfo.lookup (baseChainID (resolveChainID chainID)) with
    | some ci =>
        simp [initEVM, hb, Option.orElse, initEVMConfigure_no_unknown env ci]
    | none =>
        cases hr : ChainsCoinInfo.lookup (resolveChainID chainID) with
        | some ci =>
            simp [initEVM, hb, hr, Option.orElse, initEVMConfigure_no_unknown env ci]
        | none => simp [initEVM, hb, hr, Option.orElse]
  · intro ⟨hb, hr⟩
    simp [initEVM, hb, hr, Option.orElse]

/-- Witness for C10 at a concrete input: an unregistered chain id yields
the unknown-chain-id error with no action performed. -/
theorem claim10_initEVM_unknown_chain_witness :
    initEVM env0 "foochain" =
      (.error (.unknownChainID "foochain"), []) :=
  (claim10_initEVM_unknown_chain env0 "foochain").2.2.2 ⟨rfl, rfl⟩

end Kudora
